import Mathlib

/-!
Verification of the DataLoom backend transformation-log replay engine.

This file gives a shallow embedding of the core of the `dataloom` backend
(`app/services/transformation_service.py`, `app/services/project_service.py`,
`app/utils/security.py`, `app/api/endpoints/projects.py`,
`app/api/endpoints/transformations.py`) and proves or refutes the frozen
claims about it.

Modelling conventions:
* A pandas `DataFrame` is a `Table`: ordered named columns with a dtype each,
  and rows carrying an explicit integer row label (the pandas index), because
  several operations (`drop`, `reset_index`, `.at`) act on labels, not
  positions.
* Python/pandas library behaviour that the code merely passes through and that
  no claim depends on (the `df.query` expression evaluator, the
  `pd.to_datetime` date grammar) is a parameter (`Pandas`), so theorems about
  the surrounding code quantify over every possible behaviour of those parts.
* Machine floats are modelled as exact fractions (`Frac`); the numeric
  strings appearing in the repository's data and tests are exact decimals,
  for which this is faithful.
* Error messages are abbreviated (no interpolated values); . error
  constructors distinguish the Python exception classes that matter
  (`TransformationError`, `HTTPException`, `KeyError`, ...).
-/

deriving instance DecidableEq for Except

namespace DataLoom

/-! ## Exact rationals

Machine floats are modelled by fractions kept in lowest terms with positive
denominator; every constructor goes through `normFrac`, so structural
equality coincides with numeric equality.  (All arithmetic is structural
recursion on `Nat`/`Int`, so closed goals evaluate inside the kernel.) -/

/-- Fuel-driven Euclid; `gcdFuel (b + 1) a b` computes `gcd a b`. -/
def gcdFuel : Nat → Nat → Nat → Nat
  | 0, a, _ => a
  | _, a, 0 => a
  | fuel + 1, a, b => gcdFuel fuel b (a % b)

/-- Greatest common divisor. -/
def natGcd (a b : Nat) : Nat := gcdFuel (b + 1) a b

/-- A fraction in lowest terms with positive denominator. -/
structure Frac where
  num : Int
  den : Int
deriving Repr, DecidableEq

/-- Normalizes `n / d` (callers never pass `d = 0`; the guard keeps the
function total). -/
def normFrac (n d : Int) : Frac :=
  if d == 0 then ⟨0, 1⟩
  else
    let sgn : Int := if d < 0 then -1 else 1
    let n2 := sgn * n
    let d2 := sgn * d
    let g : Int := Int.ofNat (natGcd n2.natAbs d2.toNat)
    ⟨Int.tdiv n2 g, Int.tdiv d2 g⟩

/-- Embeds an integer. -/
def fofInt (n : Int) : Frac := ⟨n, 1⟩

/-- Addition. -/
def fadd (a b : Frac) : Frac := normFrac (a.num * b.den + b.num * a.den) (a.den * b.den)

/-- Multiplication. -/
def fmul (a b : Frac) : Frac := normFrac (a.num * b.num) (a.den * b.den)

/-- Division (callers never divide by zero). -/
def fdivF (a b : Frac) : Frac := normFrac (a.num * b.den) (a.den * b.num)

/-- Negation (stays normalized). -/
def fneg (a : Frac) : Frac := ⟨-a.num, a.den⟩

/-- Numeric equality by cross multiplication. -/
def feq (a b : Frac) : Bool := a.num * b.den == b.num * a.den

/-- Numeric `≤` (denominators are positive). -/
def fle (a b : Frac) : Bool := decide (a.num * b.den ≤ b.num * a.den)

/-- Numeric `<`. -/
def flt (a b : Frac) : Bool := decide (a.num * b.den < b.num * a.den)

/-- The power of ten `10 ^ e` for a (possibly negative) exponent. -/
def fpow10 (e : Int) : Frac :=
  if e < 0 then ⟨1, Int.ofNat (10 ^ (-e).toNat)⟩ else ⟨Int.ofNat (10 ^ e.toNat), 1⟩


/-- A cell value of a table.  `na` is pandas missing data (`NaN`/`None`/`NA`);
`dt` is a parsed timestamp (`pd.Timestamp`), represented abstractly. -/
inductive Value where
  | int (n : Int)
  | float (q : Frac)
  | str (s : String)
  | bool (b : Bool)
  | dt (t : Int)
  | na
deriving Repr, DecidableEq

/-- A pandas column dtype, restricted to the dtypes the embedded code can
produce: `int64`, `float64`, `object` (strings), numpy `bool`, nullable
`Int64`, nullable `boolean`, and `datetime64`. -/
inductive Dtype where
  | int64
  | float64
  | object
  | boolDT
  | int64N
  | booleanN
  | datetime64
deriving Repr, DecidableEq

/-- An in-memory pandas DataFrame: column names, per-column dtypes, and rows.
Each row carries its integer label (the pandas index value) together with its
cells, which are positionally aligned with `names`/`dtypes`. -/
structure Table where
  names : List String
  dtypes : List Dtype
  rows : List (Int × List Value)
deriving Repr, DecidableEq

/-- The Python exceptions the embedded code can raise.
`transformation` is the service's `TransformationError`; `httpBadRequest` is
`fastapi.HTTPException(400)` (raised by the query guard); `httpNotFound` is
`HTTPException(404)`; `keyError`, `valueError`, `indexError` are the
corresponding built-in exceptions escaping uncaught. -/
inductive PyError where
  | transformation (msg : String)
  | httpBadRequest (msg : String)
  | httpNotFound (msg : String)
  | keyError (key : String)
  | valueError (msg : String)
  | indexError (msg : String)
deriving Repr, DecidableEq

/-- External pandas behaviour the code only passes through: the `df.query`
expression evaluator and the `pd.to_datetime` single-value parse.  Theorems
quantify over this, so they hold for every evaluator/date-grammar. -/
structure Pandas where
  qeval : Table → String → Except PyError Table
  dtparse : String → Option Int

/-! ## Generic helpers -/

/-- Monadic filter over `Except`: evaluates the predicate left to right and
propagates the first error, keeping elements on `true`. -/
def filterE (p : α → Except PyError Bool) : List α → Except PyError (List α)
  | [] => .ok []
  | a :: as => do
    let b ← p a
    let r ← filterE p as
    pure (if b then a :: r else r)

/-- Stable insertion of `a` into `l`: `a` is placed before the first element
`b` with `le a b = true`. -/
def insertLe (le : α → α → Bool) (a : α) : List α → List α
  | [] => [a]
  | b :: bs => if le a b then a :: b :: bs else b :: insertLe le a bs

/-- Stable insertion sort (ties keep their original relative order provided
`le` is reflexive on ties). -/
def sortLe (le : α → α → Bool) : List α → List α
  | [] => []
  | a :: as => insertLe le a (sortLe le as)

/-- Replaces positions where `keep` is `false`. -/
def keepPos (keep : List Bool) (xs : List α) : List α :=
  (keep.zip xs).filterMap (fun bx => if bx.1 then some bx.2 else none)

/-- Inserts `a` at position `i` of `xs` (Python `list.insert` semantics for
in-range `i`). -/
def insertAt (i : Nat) (a : α) (xs : List α) : List α :=
  xs.take i ++ [a] ++ xs.drop i

/-- The literal pattern `p` matches `s` starting at position `i`. -/
def matchAt (s : List Char) (i : Nat) (p : List Char) : Bool :=
  ((s.drop i).take p.length) == p

/-! ## Python string primitives

Structural models of the `str` methods the code uses (`strip`, `lower`,
`replace`, `split`).  They are written over `List Char` with explicit fuel so
closed goals evaluate inside the kernel. -/

/-- Python `str.strip()`: drop leading and trailing whitespace. -/
def pyStrip (s : String) : String :=
  ⟨((s.toList.dropWhile Char.isWhitespace).reverse.dropWhile Char.isWhitespace).reverse⟩

/-- Python `str.lower()` (ASCII model). -/
def pyLower (s : String) : String := ⟨s.toList.map Char.toLower⟩

/-- Worker for `pyReplace`; replaces left to right, non-overlapping. -/
def pyReplaceAux (pat rep : List Char) : Nat → List Char → List Char
  | 0, s => s
  | fuel + 1, s =>
    match s with
    | [] => []
    | c :: rest =>
      if decide (0 < pat.length) && matchAt s 0 pat then
        rep ++ pyReplaceAux pat rep fuel (s.drop pat.length)
      else c :: pyReplaceAux pat rep fuel rest

/-- Python `str.replace(pat, rep)` (every occurrence; the empty-pattern corner
never arises in the embedded code). -/
def pyReplace (s pat rep : String) : String :=
  if pat == "" then s
  else ⟨pyReplaceAux pat.toList rep.toList s.toList.length s.toList⟩

/-- Worker for `pySplitOn`. -/
def splitOnAux (sep : List Char) : Nat → List Char → List Char → List (List Char)
  | 0, s, acc => [acc.reverse ++ s]
  | fuel + 1, s, acc =>
    match s with
    | [] => [acc.reverse]
    | c :: rest =>
      if decide (0 < sep.length) && matchAt s 0 sep then
        acc.reverse :: splitOnAux sep fuel (s.drop sep.length) []
      else splitOnAux sep fuel rest (c :: acc)

/-- Python `s.split(sep)` for a non-empty separator (also the semantics of
Lean `String.splitOn`). -/
def pySplitOn (s sep : String) : List String :=
  if sep == "" then [s]
  else (splitOnAux sep.toList (s.toList.length + 1) s.toList []).map (fun l => ⟨l⟩)

/-! ## Expression Filter Guard (`app/utils/security.py`) -/

/-- Character class of the regex `\w` (ASCII model: letters, digits,
underscore). -/
def isWordChar (c : Char) : Bool := c.isAlphanum || c == '_'

/-- The regex word boundary `\b` holds on the left of position `i`. -/
def boundL (s : List Char) (i : Nat) : Bool :=
  i == 0 || !(isWordChar (s.getD (i - 1) ' '))

/-- The regex word boundary `\b` holds on the right of position `j`. -/
def boundR (s : List Char) (j : Nat) : Bool :=
  decide (s.length ≤ j) || !(isWordChar (s.getD j ' '))

/-- Substring search: some position of `s` matches `p` (regex `re.search` of a
literal pattern). -/
def containsSub (s p : List Char) : Bool :=
  (List.range (s.length + 1)).any (fun i => matchAt s i p)

/-- Search for `\b p \b`: a word-boundary-delimited occurrence of the literal
word `p`. -/
def hasWordToken (s p : List Char) : Bool :=
  (List.range (s.length + 1)).any
    (fun i => boundL s i && matchAt s i p && boundR s (i + p.length))

/-- Search for `\b p \s* c`: a left-bounded occurrence of `p` followed by
optional whitespace and then the single character `c`.  (The regexes
`\bos\b\s*\.` etc. need no separate right-boundary check: the first matched
character after `p` is whitespace or `c`, both non-word characters.) -/
def hasTokenWsChar (s p : List Char) (c : Char) : Bool :=
  (List.range (s.length + 1)).any (fun i =>
    boundL s i && matchAt s i p &&
    ((List.range s.length).any (fun k =>
      decide (i + p.length ≤ k) &&
      ((s.drop (i + p.length)).take (k - (i + p.length))).all (fun ch => ch.isWhitespace) &&
      (s.getD k ' ' == c))))

/-- Search for the catch-all dunder regex `__\w+__`: two underscores, one or
more word characters, two underscores. -/
def hasDunder (s : List Char) : Bool :=
  (List.range (s.length + 1)).any (fun i =>
    matchAt s i ['_', '_'] &&
    ((List.range (s.length + 1)).any (fun n =>
      decide (1 ≤ n) && decide (i + 2 + n ≤ s.length) &&
      ((s.drop (i + 2)).take n).all isWordChar &&
      matchAt s (i + 2 + n) ['_', '_'])))

/-- Lower-cased character list of a query; all guard patterns are lower-case
literals searched with `re.IGNORECASE`, so matching the lowered subject is
equivalent. -/
def lowq (q : String) : List Char := q.toList.map Char.toLower

/-- One disjunct per entry of `_DANGEROUS_PATTERNS`, in source order. -/
def dangerousQuery (q : String) : Bool :=
  containsSub (lowq q) "__import__".toList ||
  containsSub (lowq q) "__builtins__".toList ||
  containsSub (lowq q) "__class__".toList ||
  containsSub (lowq q) "__subclasses__".toList ||
  containsSub (lowq q) "__globals__".toList ||
  hasWordToken (lowq q) "exec".toList ||
  hasTokenWsChar (lowq q) "os".toList '.' ||
  hasTokenWsChar (lowq q) "sys".toList '.' ||
  hasWordToken (lowq q) "lambda".toList ||
  hasTokenWsChar (lowq q) "open".toList '(' ||
  hasTokenWsChar (lowq q) "compile".toList '(' ||
  hasDunder (lowq q)

/-- Embeds `validate_query_string`: raises `HTTPException(400)` when any
dangerous pattern matches, otherwise returns the query unchanged. -/
def validate_query_string (q : String) : Except PyError String :=
  if dangerousQuery q then
    .error (.httpBadRequest "Query contains potentially dangerous expressions")
  else .ok q

/-- ASCII model of Python `str.isidentifier`. -/
def pyIsIdentifier (s : String) : Bool :=
  match s.toList with
  | [] => false
  | c :: r => (c.isAlpha || c == '_') && r.all (fun ch => ch.isAlphanum || ch == '_')

/-! ## Python numeric/string coercions -/

/-- Numeric value of a digit string. -/
def digitsVal (ds : List Char) : Nat :=
  ds.foldl (fun a c => a * 10 + (c.toNat - 48)) 0

/-- Parses an exponent suffix (after `e`/`E`): optional sign, then at least
one digit, consuming everything that remains. -/
def parseExpPart : List Char → Option Int
  | [] => none
  | '+' :: r => if r ≠ [] ∧ r.all Char.isDigit then some (digitsVal r) else none
  | '-' :: r => if r ≠ [] ∧ r.all Char.isDigit then some (-(digitsVal r : Int)) else none
  | r => if r.all Char.isDigit then some (digitsVal r) else none

/-- Applies an optional exponent part to a parsed mantissa. -/
def applyExp (m : Frac) : List Char → Option Frac
  | [] => some m
  | 'e' :: r => (parseExpPart r).map (fun e => fmul m (fpow10 e))
  | 'E' :: r => (parseExpPart r).map (fun e => fmul m (fpow10 e))
  | _ => none

/-- Parses an unsigned Python float literal: digits, optionally a decimal
point and more digits (at least one digit overall), optionally an exponent.
The special forms `inf`/`nan` and digit-group underscores are not modelled;
no embedded theorem feeds them. -/
def pyFloatCore (t : List Char) : Option Frac :=
  let ip := t.takeWhile Char.isDigit
  let rest := t.drop ip.length
  match rest with
  | '.' :: r2 =>
    let fp := r2.takeWhile Char.isDigit
    let rest2 := r2.drop fp.length
    if ip.isEmpty && fp.isEmpty then none
    else applyExp (fadd (fofInt (digitsVal ip))
      (fdivF (fofInt (digitsVal fp)) (fofInt (10 ^ fp.length)))) rest2
  | _ => if ip.isEmpty then none else applyExp (fofInt (digitsVal ip)) rest

/-- Python `float(s)` on a string: strip whitespace, optional sign, then an
unsigned float literal.  `none` models `ValueError`. -/
def pyFloatStr (s : String) : Option Frac :=
  match (pyStrip s).toList with
  | '+' :: t => pyFloatCore t
  | '-' :: t => (pyFloatCore t).map fneg
  | t => pyFloatCore t

/-- Python `int(s)` on a string: strip whitespace, optional sign, digits only
(`int("2.5")` raises).  `none` models `ValueError`. -/
def pyIntStr (s : String) : Option Int :=
  match (pyStrip s).toList with
  | '+' :: t => if t ≠ [] ∧ t.all Char.isDigit then some (digitsVal t) else none
  | '-' :: t => if t ≠ [] ∧ t.all Char.isDigit then some (-(digitsVal t : Int)) else none
  | t => if t ≠ [] ∧ t.all Char.isDigit then some (digitsVal t) else none

/-- Python `str(v)` as used by the code.  Floats render as Python decimals
for integral values; the rendering of non-integral rationals differs from
CPython, but every use in the embedded code only tests membership of the
result in fixed lower-case token sets, on which the two renderings agree.
pandas `astype(str)` turns missing values into the literal string `nan`. -/
def pyStr : Value → String
  | .str s => s
  | .int n => toString n
  | .bool b => if b then "True" else "False"
  | .float q => if q.den == 1 then toString q.num ++ ".0"
                else toString q.num ++ "/" ++ toString q.den
  | .dt t => toString t
  | .na => "nan"

/-- Python `int(v)` for the JSON-decodable values a cell update can carry;
`none` models the `ValueError`/`TypeError` that `int` raises.  `int` of a
float truncates toward zero. -/
def pyIntV : Value → Option Int
  | .int n => some n
  | .float q => some (Int.tdiv q.num q.den)
  | .bool b => some (if b then 1 else 0)
  | .str s => pyIntStr s
  | .dt _ => none
  | .na => none

/-- Python `float(v)`; `none` models `ValueError`/`TypeError` (e.g. on
`None`). -/
def pyFloatV : Value → Option Frac
  | .int n => some (fofInt n)
  | .float q => some q
  | .bool b => some (fofInt (if b then 1 else 0))
  | .str s => pyFloatStr s
  | .dt _ => none
  | .na => none

/-- Python `bool(v)` truthiness; never raises.  `na` stands for JSON `null`
(Python `None`), which is falsy. -/
def pyTruthy : Value → Bool
  | .str s => s != ""
  | .int n => n != 0
  | .float q => q.num != 0
  | .bool b => b
  | .dt _ => true
  | .na => false

/-! ## Value comparison semantics (pandas elementwise operators) -/

/-- Numeric view of a value: ints, floats and numpy bools compare
numerically. -/
def valueAsNum : Value → Option Frac
  | .int n => some (fofInt n)
  | .float q => some q
  | .bool b => some (fofInt (if b then 1 else 0))
  | _ => none

/-- Python string comparison: lexicographic by code point. -/
def strLtL : List Char → List Char → Bool
  | [], [] => false
  | [], _ :: _ => true
  | _ :: _, [] => false
  | a :: as, b :: bs => if a == b then strLtL as bs else decide (a.val < b.val)

/-- String strict order. -/
def strLt (a b : String) : Bool := strLtL a.toList b.toList

/-- Recognizes the missing value. -/
def isNa : Value → Bool
  | .na => true
  | _ => false

/-- pandas elementwise `==`: numeric values compare numerically, strings by
equality, `NaN` equals nothing, and mixed types are unequal (not an error). -/
def cmpEq (cell v : Value) : Bool :=
  match valueAsNum cell, valueAsNum v with
  | some a, some b => feq a b
  | _, _ =>
    match cell, v with
    | .str a, .str b => a == b
    | _, _ => false

/-- pandas elementwise ordering: `some Ordering` for comparable values,
`none` when `NaN` meets a number (every ordering test is `False` there), and
an error for unorderable mixtures such as a string against `NaN`. -/
def cmpOrdBase (cell v : Value) : Except PyError (Option Ordering) :=
  match valueAsNum cell, valueAsNum v with
  | some a, some b =>
    .ok (some (if flt a b then Ordering.lt else if feq a b then Ordering.eq else Ordering.gt))
  | _, _ =>
    match cell, v with
    | .str a, .str b =>
      .ok (some (if strLt a b then Ordering.lt else if a == b then Ordering.eq else Ordering.gt))
    | .na, .int _ => .ok none
    | .na, .float _ => .ok none
    | .na, .bool _ => .ok none
    | .na, .na => .ok none
    | .int _, .na => .ok none
    | .float _, .na => .ok none
    | .bool _, .na => .ok none
    | _, _ => .error (.valueError "unorderable types")

/-- The test run for one cell by one of the five comparison lambdas of
`apply_filter`. -/
def condTest (cond : String) (cell v : Value) : Except PyError Bool :=
  if cond == "=" then .ok (cmpEq cell v)
  else do
    let o ← cmpOrdBase cell v
    match o with
    | none => pure false
    | some ord =>
      pure (if cond == ">" then ord == Ordering.gt
            else if cond == "<" then ord == Ordering.lt
            else if cond == ">=" then ord == Ordering.gt || ord == Ordering.eq
            else ord == Ordering.lt || ord == Ordering.eq)

/-! ## Table accessors -/

/-- Position of a column name (first occurrence). -/
def colPos (t : Table) (c : String) : Option Nat := t.names.findIdx? (· == c)

/-- Values of the column at position `j`, top to bottom. -/
def colVals (t : Table) (j : Nat) : List Value := t.rows.map (fun r => r.2.getD j Value.na)

/-- Dtype of the column at position `j`. -/
def colDtype (t : Table) (j : Nat) : Dtype := t.dtypes.getD j Dtype.object

/-- Relabels rows `0, 1, 2, ...` (pandas `reset_index(drop=True)`). -/
def reset_index (df : Table) : Table :=
  { df with rows := df.rows.enum.map (fun p => ((p.1 : Int), p.2.2)) }

/-! ## Operation Registry (`app/services/transformation_service.py`) -/

/-- Embeds `get_column_type`: `string` for object columns, `numeric` for
numeric dtypes (numpy ints, floats, bools and nullable `Int64` are numeric to
`pd.api.types.is_numeric_dtype`), else `unknown`. -/
def get_column_type (df : Table) (column : String) : String :=
  match colPos df column with
  | none => "unknown"
  | some j =>
    match colDtype df j with
    | .object => "string"
    | .int64 => "numeric"
    | .float64 => "numeric"
    | .int64N => "numeric"
    | .boolDT => "numeric"
    | .booleanN => "numeric"
    | _ => "unknown"

/-- The conditions `apply_filter` supports: the keys of its `ops` dict. -/
def supportedConds : List String := ["=", ">", "<", ">=", "<="]

/-- Embeds `apply_filter`.  Order matches the source: column membership, then
the cast of `value` to `float` for numeric columns, then the condition-key
lookup, and only then row evaluation. -/
def apply_filter (df : Table) (column condition value : String) : Except PyError Table := do
  if !(df.names.contains column) then
    throw (PyError.transformation "Column not found")
  let v : Value ←
    if get_column_type df column == "numeric" then
      match pyFloatStr value with
      | some q => pure (Value.float q)
      | none => throw (PyError.transformation "Invalid numeric value")
    else pure (Value.str value)
  if supportedConds.contains condition then
    let j := (colPos df column).getD 0
    let keep ← filterE (fun r => condTest condition (r.2.getD j Value.na) v) df.rows
    pure { df with rows := keep }
  else throw (PyError.transformation ("Unsupported filter condition: " ++ condition))

/-- Total `≤` on homogeneous column values (numeric or string); the
heterogeneous fallback is arbitrary and unreachable for well-typed columns. -/
def vle (a b : Value) : Bool :=
  match valueAsNum a, valueAsNum b with
  | some x, some y => fle x y
  | _, _ =>
    match a, b with
    | .str x, .str y => !(strLt y x)
    | _, _ => true

/-- Sort key order of `sort_values`: missing values last in both directions
(`na_position` defaults to `last`). -/
def sortVle (asc : Bool) (a b : Value) : Bool :=
  if isNa b then true
  else if isNa a then false
  else if asc then vle a b else vle b a

/-- Embeds `apply_sort`.  `sort_values` uses an unstable quicksort whose tie
order is unspecified; the model realizes one permissible outcome (stable). -/
def apply_sort (df : Table) (column : String) (ascending : Bool) : Except PyError Table := do
  if !(df.names.contains column) then
    throw (PyError.transformation "Column not found")
  let j := (colPos df column).getD 0
  let sorted := sortLe (fun r s => sortVle ascending (r.2.getD j Value.na) (s.2.getD j Value.na)) df.rows
  pure { df with rows := sorted }

/-- Embeds `add_row`: a row of single-space strings is concatenated at the
position, and the index is reset.  Concatenating the all-string row block
turns every column dtype into `object`. -/
def add_row (df : Table) (index : Int) : Except PyError Table := do
  if index < 0 ∨ (df.rows.length : Int) < index then
    throw (PyError.transformation "Row index out of range")
  let i := index.toNat
  let newRow := df.names.map (fun _ => Value.str " ")
  let cells := df.rows.map Prod.snd
  pure (reset_index { df with
    dtypes := df.dtypes.map (fun _ => Dtype.object),
    rows := (insertAt i newRow cells).map (fun r => ((0 : Int), r)) })

/-- pandas `df.drop(lbl)`: removes the rows labelled `lbl`; a label that does
not occur raises `KeyError`. -/
def dropLabel (df : Table) (lbl : Int) : Except PyError Table :=
  if df.rows.any (fun r => r.1 == lbl) then
    .ok { df with rows := df.rows.filter (fun r => r.1 != lbl) }
  else .error (PyError.keyError (toString lbl))

/-- Embeds `delete_row`: bounds check on the row count, drop by label, then
`reset_index(drop=True)`. -/
def delete_row (df : Table) (index : Int) : Except PyError Table := do
  if index < 0 ∨ (df.rows.length : Int) ≤ index then
    throw (PyError.transformation "Row index out of range")
  let d ← dropLabel df index
  pure (reset_index d)

/-- Embeds `add_column`: bounds check, then `df.insert(index, name, None)`,
which gives an all-missing `object` column and raises `ValueError` on a
duplicate name. -/
def add_column (df : Table) (index : Int) (name : String) : Except PyError Table := do
  if index < 0 ∨ (df.names.length : Int) < index then
    throw (PyError.transformation "Column index out of range")
  if df.names.contains name then
    throw (PyError.valueError "column already exists")
  let i := index.toNat
  pure { names := insertAt i name df.names,
         dtypes := insertAt i Dtype.object df.dtypes,
         rows := df.rows.map (fun r => (r.1, insertAt i Value.na r.2)) }

/-- Embeds `delete_column`: bounds check, then `df.drop(name, axis=1)`, which
removes every column carrying that name. -/
def delete_column (df : Table) (index : Int) : Except PyError Table := do
  if index < 0 ∨ (df.names.length : Int) ≤ index then
    throw (PyError.transformation "Column index out of range")
  let name := df.names.getD index.toNat ""
  let keep := df.names.map (fun c => c != name)
  pure { names := keepPos keep df.names,
         dtypes := keepPos keep df.dtypes,
         rows := df.rows.map (fun r => (r.1, keepPos keep r.2)) }

/-- The dtype-directed cell coercion of `change_cell_value`
(`is_integer_dtype` also covers nullable `Int64`, `is_bool_dtype` also covers
nullable `boolean`); `none` models the caught `ValueError`/`TypeError`. -/
def coerceCell (d : Dtype) (v : Value) : Option Value :=
  match d with
  | .int64 => (pyIntV v).map Value.int
  | .int64N => (pyIntV v).map Value.int
  | .float64 => (pyFloatV v).map Value.float
  | .boolDT => some (Value.bool (pyTruthy v))
  | .booleanN => some (Value.bool (pyTruthy v))
  | _ => some v

/-- Embeds `change_cell_value`.  The source checks only the upper bounds
(`row_index >= len(df)` and `col_index >= len(df.columns) + 1`); negative
indices pass.  `df.columns[col_index - 1]` uses Python indexing, so a
negative position wraps from the end.  `df.at[row_index, name]` addresses the
row by label; a missing label enlarges the frame with a new row of missing
values carrying that label. -/
def change_cell_value (df : Table) (row_index col_index : Int) (value : Value) :
    Except PyError Table :=
  if (df.rows.length : Int) ≤ row_index ∨ (df.names.length : Int) + 1 ≤ col_index then
    .error (PyError.transformation "Row or column index out of bounds")
  else
    let n := df.names.length
    let realPos : Int := col_index - 1
    let wrapped : Int := if realPos < 0 then realPos + n else realPos
    if wrapped < 0 ∨ (n : Int) ≤ wrapped then
      .error (PyError.indexError "index out of range")
    else
      let j := wrapped.toNat
      match coerceCell (colDtype df j) value with
      | none => .error (PyError.transformation "Cannot convert value to column type")
      | some v =>
        if df.rows.any (fun r => r.1 == row_index) then
          .ok { df with rows := df.rows.map (fun r =>
            if r.1 == row_index then (r.1, r.2.set j v) else r) }
        else
          .ok { df with rows := df.rows ++
            [(row_index, (df.names.map (fun _ => Value.na)).set j v)] }

/-- Embeds `fill_empty`: `fillna` on one column (bounds-checked) or on the
whole frame.  Dtype relaxation from filling is not tracked. -/
def fill_empty (df : Table) (fill_value : Value) (column_index : Option Int) :
    Except PyError Table := do
  match column_index with
  | some ci =>
    if ci < 0 ∨ (df.names.length : Int) ≤ ci then
      throw (PyError.transformation "Column index out of range")
    let j := ci.toNat
    pure { df with rows := df.rows.map (fun r =>
      (r.1, r.2.enum.map (fun p => if p.1 == j && p.2 == Value.na then fill_value else p.2))) }
  | none =>
    pure { df with rows := df.rows.map (fun r =>
      (r.1, r.2.map (fun v => if v == Value.na then fill_value else v))) }

/-- Embeds `rename_column`: positional bounds check, empty/whitespace-only
name check, then `df.rename`, which renames every column carrying the old
name. -/
def rename_column (df : Table) (col_index : Int) (new_name : String) :
    Except PyError Table := do
  if col_index < 0 ∨ (df.names.length : Int) ≤ col_index then
    throw (PyError.transformation "Column index out of range")
  if new_name == "" || pyStrip new_name == "" then
    throw (PyError.transformation "New column name cannot be empty")
  let old := df.names.getD col_index.toNat ""
  pure { df with names := df.names.map (fun c => if c == old then new_name else c) }

/-- Elementwise `pd.to_numeric(..., errors="coerce")`: numbers pass through,
numpy bools become 0/1, parsable strings parse, everything else becomes
missing. -/
def toNumericVal : Value → Option Frac
  | .int n => some (fofInt n)
  | .float q => some q
  | .bool b => some (fofInt (if b then 1 else 0))
  | .str s => pyFloatStr s
  | .dt _ => none
  | .na => none

/-- The truthy token set of the boolean cast. -/
def truthyTokens : List String := ["true", "1", "yes", "y", "on"]

/-- The falsy token set of the boolean cast. -/
def falsyTokens : List String := ["false", "0", "no", "n", "off"]

/-- The per-value boolean cast lambda of `cast_data_type`. -/
def boolTokenVal (v : Value) : Value :=
  let s := pyLower (pyStrip (pyStr v))
  if truthyTokens.contains s then Value.bool true
  else if falsyTokens.contains s then Value.bool false
  else Value.na

/-- Replaces the values and dtype of the column at position `j`. -/
def setCol (df : Table) (j : Nat) (d : Dtype) (vs : List Value) : Table :=
  { df with dtypes := df.dtypes.set j d,
            rows := (df.rows.zip vs).map (fun p => (p.1.1, p.1.2.set j p.2)) }

/-- Embeds `cast_data_type`.  The integer branch is
`pd.to_numeric(..., errors="coerce").astype("Int64")`; `astype("Int64")`
raises (`cannot safely cast non-equivalent float64 to int64`) when any
coerced value has a nonzero fractional part, and the blanket
`except Exception` rewraps that as `TransformationError`. -/
def cast_data_type (P : Pandas) (df : Table) (column target_type : String) :
    Except PyError Table :=
  if !(df.names.contains column) then
    .error (PyError.transformation "Column not found")
  else
    let j := (colPos df column).getD 0
    let vs := colVals df j
    if target_type == "string" then
      .ok (setCol df j Dtype.object (vs.map (fun v => Value.str (pyStr v))))
    else if target_type == "integer" then
      if (vs.map toNumericVal).any (fun o => match o with
          | some q => q.den != 1 | none => false) then
        .error (PyError.transformation "Failed to cast column")
      else
        .ok (setCol df j Dtype.int64N ((vs.map toNumericVal).map (fun o => match o with
          | some q => Value.int q.num
          | none => Value.na)))
    else if target_type == "float" then
      .ok (setCol df j Dtype.float64 ((vs.map toNumericVal).map (fun o => match o with
        | some q => Value.float q
        | none => Value.na)))
    else if target_type == "boolean" then
      .ok (setCol df j Dtype.booleanN (vs.map boolTokenVal))
    else if target_type == "datetime" then
      .ok (setCol df j Dtype.datetime64 (vs.map (fun v => match v with
        | Value.na => Value.na
        | v => match P.dtparse (pyStr v) with
               | some t => Value.dt t
               | none => Value.na)))
    else .error (PyError.transformation "Unsupported target type")

/-- Keeps the first element of each `key`-class, preserving order; `seen`
accumulates the key values already emitted. -/
def dedupSeen [BEq β] (key : α → β) : List α → List β → List α
  | [], _ => []
  | a :: as, seen =>
    if seen.contains (key a) then dedupSeen key as seen
    else a :: dedupSeen key as (key a :: seen)

/-- First-occurrence deduplication by key. -/
def dedupBy [BEq β] (key : α → β) (xs : List α) : List α := dedupSeen key xs []

/-- Embeds `drop_duplicates`: split the comma-separated column list, strip,
check membership, then `df.drop_duplicates(subset, keep)` (row labels are
preserved; `keep` arrives serialized as `first` or `last`). -/
def drop_duplicates (df : Table) (columns : String) (keep : String) :
    Except PyError Table := do
  let colList := (pySplitOn columns ",").map pyStrip
  if colList.any (fun c => !(df.names.contains c)) then
    throw (PyError.transformation "Columns not found in dataset")
  let keyOf : (Int × List Value) → List Value := fun r =>
    colList.map (fun c => r.2.getD ((colPos df c).getD 0) Value.na)
  if keep == "first" then
    pure { df with rows := dedupBy keyOf df.rows }
  else if keep == "last" then
    pure { df with rows := (dedupBy keyOf df.rows.reverse).reverse }
  else throw (PyError.valueError "keep must be first or last")

/-- Embeds `advanced_query`: guard, quote normalization and strip, backtick
wrapping of non-identifier column names, then the expression evaluator. -/
def advanced_query (P : Pandas) (df : Table) (query_string : String) :
    Except PyError Table := do
  let q ← validate_query_string query_string
  let q1 := pyStrip (pyReplace q "\x27" "\x22")
  let q2 := df.names.foldl
    (fun acc c => if pyIsIdentifier c then acc else pyReplace acc c ("\x60" ++ c ++ "\x60")) q1
  P.qeval df q2

/-- Lexicographic `≤` on grouping keys. -/
def lexLe : List Value → List Value → Bool
  | [], _ => true
  | _ :: _, [] => false
  | x :: xs, y :: ys => if x == y then lexLe xs ys else vle x y

/-- One pivot aggregation over the (non-missing) values of a group.  `sum` of
an integer column stays integer, mirroring pandas dtype preservation; the
other aggregations produce floats (dtype subtleties beyond this are not
claim-relevant). -/
def pivotAgg (aggfunc : String) (dtypeV : Dtype) (xs : List Value) : Except PyError Value :=
  let rats := xs.filterMap valueAsNum
  if aggfunc == "sum" then
    let s := rats.foldl fadd (fofInt 0)
    .ok (if (dtypeV == Dtype.int64 || dtypeV == Dtype.int64N) && s.den == 1
         then Value.int s.num else Value.float s)
  else if aggfunc == "count" then .ok (Value.int rats.length)
  else if aggfunc == "mean" then
    .ok (if rats.length == 0 then Value.na
         else Value.float (fdivF (rats.foldl fadd (fofInt 0)) (fofInt rats.length)))
  else if aggfunc == "min" then
    match sortLe fle rats with
    | [] => .ok Value.na
    | x :: _ => .ok (Value.float x)
  else if aggfunc == "max" then
    match (sortLe fle rats).reverse with
    | [] => .ok Value.na
    | x :: _ => .ok (Value.float x)
  else if aggfunc == "median" then
    let sorted := sortLe fle rats
    let k := sorted.length
    if k == 0 then .ok Value.na
    else if k % 2 == 1 then .ok (Value.float (sorted.getD (k / 2) (fofInt 0)))
    else .ok (Value.float (fdivF
      (fadd (sorted.getD (k / 2 - 1) (fofInt 0)) (sorted.getD (k / 2) (fofInt 0)))
      (fofInt 2)))
  else .error (PyError.valueError "Unsupported aggregation")

/-- Embeds `pivot_table`: split and validate columns, group by the index
columns (pandas sorts the group keys ascending), aggregate the value column,
stringify column labels, and `reset_index()` so the index columns lead. -/
def pivot_table (df : Table) (index value : String) (column : Option String)
    (aggfunc : String) : Except PyError Table := do
  let index_cols := (pySplitOn index ",").map pyStrip
  let all_cols := index_cols ++ (match column with | some c => [c] | none => []) ++ [value]
  if all_cols.any (fun c => !(df.names.contains c)) then
    throw (PyError.transformation "Columns not found in dataset")
  let jv := (colPos df value).getD 0
  let dv := colDtype df jv
  let keyOf : (Int × List Value) → List Value := fun r =>
    index_cols.map (fun c => r.2.getD ((colPos df c).getD 0) Value.na)
  let keys := sortLe lexLe (dedupBy id (df.rows.map keyOf))
  let keyDtypes := index_cols.map (fun c => colDtype df ((colPos df c).getD 0))
  match column with
  | none =>
    let agg ← keys.mapM (fun k =>
      pivotAgg aggfunc dv ((df.rows.filter (fun r => keyOf r == k)).map
        (fun r => r.2.getD jv Value.na)))
    pure { names := index_cols ++ [value],
           dtypes := keyDtypes ++ [dv],
           rows := ((keys.zip agg).enum.map (fun p => ((p.1 : Int), p.2.1 ++ [p.2.2]))) }
  | some c =>
    let jc := (colPos df c).getD 0
    let pvals := sortLe vle (dedupBy id (df.rows.map (fun r => r.2.getD jc Value.na)))
    let cellsOf : List Value → Except PyError (List Value) := fun k =>
      pvals.mapM (fun pv =>
        let sub := df.rows.filter (fun r => keyOf r == k && r.2.getD jc Value.na == pv)
        if sub.isEmpty then pure Value.na
        else pivotAgg aggfunc dv (sub.map (fun r => r.2.getD jv Value.na)))
    let agg ← keys.mapM cellsOf
    pure { names := index_cols ++ pvals.map pyStr,
           dtypes := keyDtypes ++ pvals.map (fun _ => Dtype.float64),
           rows := ((keys.zip agg).enum.map (fun p => ((p.1 : Int), p.2.1 ++ p.2.2))) }

/-! ## Serialized log-entry payloads (`app/schemas.py` `TransformationInput`)

Each optional group mirrors one parameter schema; `action_details` is the
serialized `TransformationInput.dict()`.  A dispatcher branch that
subscripts a missing group models Python `KeyError`. -/

/-- `AddOrDeleteRow`. -/
structure RowParams where
  index : Int
deriving Repr, DecidableEq

/-- `AddOrDeleteColumn`. -/
structure ColParams where
  index : Int
  name : String
deriving Repr, DecidableEq

/-- `ChangeCellValue`. -/
structure CellParams where
  row_index : Int
  col_index : Int
  fill_value : Value
deriving Repr, DecidableEq

/-- `FillEmptyParams`; `index` is optional in the schema. -/
structure FillParams where
  index : Option Int
  fill_value : Value
deriving Repr, DecidableEq

/-- `DropDuplicates` parameters. -/
structure DropDupParams where
  columns : String
  keep : String
deriving Repr, DecidableEq

/-- `RenameColumnParams`. -/
structure RenameParams where
  col_index : Int
  new_name : String
deriving Repr, DecidableEq

/-- `CastDataTypeParams`. -/
structure CastParams where
  column : String
  target_type : String
deriving Repr, DecidableEq

/-- `FilterParameters`. -/
structure FilterParams where
  column : String
  condition : String
  value : String
deriving Repr, DecidableEq

/-- `SortParameters`. -/
structure SortParams where
  column : String
  ascending : Bool
deriving Repr, DecidableEq

/-- `AdvancedQuery`. -/
structure QueryParams where
  query : String
deriving Repr, DecidableEq

/-- `Pivot`; `column` is optional and `aggfun` is read back with
`.get('aggfun', 'sum')`. -/
structure PivotParams where
  index : String
  value : String
  column : Option String
  aggfun : Option String
deriving Repr, DecidableEq

/-- The serialized `action_details` dict: one optional group per operation
family. -/
structure ActionDetails where
  row_params : Option RowParams := none
  col_params : Option ColParams := none
  change_cell_value : Option CellParams := none
  fill_empty_params : Option FillParams := none
  drop_duplicate : Option DropDupParams := none
  rename_col_params : Option RenameParams := none
  cast_data_type_params : Option CastParams := none
  parameters : Option FilterParams := none
  sort_params : Option SortParams := none
  adv_query : Option QueryParams := none
  pivot_query : Option PivotParams := none
deriving Repr, DecidableEq

/-! ## Replay dispatcher (`apply_logged_transformation`) -/

/-- The `action_type` strings the replay dispatcher recognizes, in source
branch order; any other string hits the final `else`, which logs a warning
and returns the frame unchanged. -/
def recognizedKinds : List String :=
  ["addRow", "delRow", "addCol", "delCol", "changeCellValue", "fillEmpty",
   "dropDuplicate", "renameCol", "castDataType", "filter", "sort",
   "advQueryFilter", "pivotTables"]

/-- Embeds `apply_logged_transformation`.  Every branch delegates to the
registry function of the same name, except `delRow`, which re-implements the
bounds check inline and calls `df.drop(index)` without `reset_index`. -/
def apply_logged_transformation (P : Pandas) (df : Table) (action_type : String)
    (action_details : ActionDetails) : Except PyError Table :=
  if action_type == "addRow" then
    match action_details.row_params with
    | none => .error (PyError.keyError "row_params")
    | some p => add_row df p.index
  else if action_type == "delRow" then
    match action_details.row_params with
    | none => .error (PyError.keyError "row_params")
    | some p =>
      if p.index < 0 ∨ (df.rows.length : Int) ≤ p.index then
        .error (PyError.transformation "Row index out of range")
      else dropLabel df p.index
  else if action_type == "addCol" then
    match action_details.col_params with
    | none => .error (PyError.keyError "col_params")
    | some p => add_column df p.index p.name
  else if action_type == "delCol" then
    match action_details.col_params with
    | none => .error (PyError.keyError "col_params")
    | some p => delete_column df p.index
  else if action_type == "changeCellValue" then
    match action_details.change_cell_value with
    | none => .error (PyError.keyError "change_cell_value")
    | some p => change_cell_value df p.row_index p.col_index p.fill_value
  else if action_type == "fillEmpty" then
    match action_details.fill_empty_params with
    | none => .error (PyError.keyError "fill_empty_params")
    | some p => fill_empty df p.fill_value p.index
  else if action_type == "dropDuplicate" then
    match action_details.drop_duplicate with
    | none => .error (PyError.keyError "drop_duplicate")
    | some p => drop_duplicates df p.columns p.keep
  else if action_type == "renameCol" then
    match action_details.rename_col_params with
    | none => .error (PyError.keyError "rename_col_params")
    | some p => rename_column df p.col_index p.new_name
  else if action_type == "castDataType" then
    match action_details.cast_data_type_params with
    | none => .error (PyError.keyError "cast_data_type_params")
    | some p => cast_data_type P df p.column p.target_type
  else if action_type == "filter" then
    match action_details.parameters with
    | none => .error (PyError.keyError "parameters")
    | some p => apply_filter df p.column p.condition p.value
  else if action_type == "sort" then
    match action_details.sort_params with
    | none => .error (PyError.keyError "sort_params")
    | some p => apply_sort df p.column p.ascending
  else if action_type == "advQueryFilter" then
    match action_details.adv_query with
    | none => .error (PyError.keyError "adv_query")
    | some p => advanced_query P df p.query
  else if action_type == "pivotTables" then
    match action_details.pivot_query with
    | none => .error (PyError.keyError "pivot_query")
    | some p => pivot_table df p.index p.value p.column (p.aggfun.getD "sum")
  else
    .ok df

/-! ## Durable entities and service layer (`app/models.py`,
`app/services/project_service.py`) -/

/-- A `user_logs` row (`ProjectChangeLog`); `project_id` and `checkpoint_id`
UUIDs are modelled as numbers. -/
structure LogRec where
  change_log_id : Nat
  project_id : Nat
  action_type : String
  action_details : ActionDetails
  timestamp : Nat
  checkpoint_id : Option Nat := none
  applied : Bool := false
deriving Repr, DecidableEq

/-- A `checkpoints` row. -/
structure CheckpointRec where
  id : Nat
  project_id : Nat
  message : String
  created_at : Nat
deriving Repr, DecidableEq

/-- A `projects` row, reduced to the fields the modelled endpoints read. -/
structure ProjectRec where
  project_id : Nat
  file_path : String
deriving Repr, DecidableEq

/-- Database state: rows in insertion order, the next checkpoint primary key,
and the clock used for `server_default=func.now()` stamps. -/
structure DB where
  logs : List LogRec
  checkpoints : List CheckpointRec
  nextCheckpointId : Nat
  now : Nat
deriving Repr, DecidableEq

/-- The criterion the service passes for "unapplied" rows.  The source writes
`not models.ProjectChangeLog.applied`, applying Python `not` to the SQLAlchemy
`InstrumentedAttribute` object itself rather than building a column
expression.  The attribute object defines no `__bool__`, so Python treats it
as truthy and `not` evaluates to the constant `False`; SQLAlchemy renders
that Python `False` as the SQL false clause, a row-independent criterion. -/
def notAppliedClause (_l : LogRec) : Bool := false

/-- Spec-level count of unapplied log entries of a project (the data-model
notion used by the claims; the service's own `get_unapplied_logs_count`
shares the `notAppliedClause` defect and is not this). -/
def unappliedCount (db : DB) (pid : Nat) : Nat :=
  (db.logs.filter (fun l => l.project_id == pid && l.applied == false)).length

/-- Stable ascending sort by `timestamp` (the `ORDER BY timestamp` of the
replay queries; ties keep insertion order, the practical SQLite scan order). -/
def sortByTimestamp (ls : List LogRec) : List LogRec :=
  sortLe (fun a b => decide (a.timestamp ≤ b.timestamp)) ls

/-- Stable descending sort by `timestamp` (the `ORDER BY timestamp DESC` of
`undo_last_transformation`). -/
def sortByTimestampDesc (ls : List LogRec) : List LogRec :=
  sortLe (fun a b => decide (b.timestamp ≤ a.timestamp)) ls

/-- Embeds `create_checkpoint`: insert the checkpoint row (flush assigns its
id), query the logs matching `project_id == pid` AND `notAppliedClause`, and
set `applied`/`checkpoint_id` on each queried row. -/
def create_checkpoint (db : DB) (pid : Nat) (message : String) : DB × CheckpointRec :=
  let cp : CheckpointRec := ⟨db.nextCheckpointId, pid, message, db.now⟩
  let hit : LogRec → Bool := fun l => l.project_id == pid && notAppliedClause l
  let logs := db.logs.map (fun l =>
    if hit l then { l with applied := true, checkpoint_id := some cp.id } else l)
  ({ db with logs := logs,
             checkpoints := db.checkpoints ++ [cp],
             nextCheckpointId := db.nextCheckpointId + 1 }, cp)

/-- Embeds `undo_last_transformation`: query `project_id == pid` AND
`notAppliedClause` ordered by timestamp descending, take the first row,
delete it, and recount with the same criterion. -/
def undo_last_transformation (db : DB) (pid : Nat) : DB × Option LogRec × Nat :=
  let hit : LogRec → Bool := fun l => l.project_id == pid && notAppliedClause l
  match (sortByTimestampDesc (db.logs.filter hit)).head? with
  | none => (db, none, 0)
  | some last =>
    let db2 := { db with logs := db.logs.filter (fun l => l.change_log_id != last.change_log_id) }
    (db2, some last, (db2.logs.filter hit).length)

/-! ## File storage and the Save endpoint (`app/services/file_service.py`,
`app/api/endpoints/projects.py`) -/

/-- The storage collaborator: path to file contents. -/
abbrev FileMap := List (String × Table)

/-- Reads the table stored at a path. -/
def readFile (fs : FileMap) (p : String) : Option Table :=
  (fs.find? (fun e => e.1 == p)).map Prod.snd

/-- Writes a table at a path (overwrite or create). -/
def writeFile (fs : FileMap) (p : String) (t : Table) : FileMap :=
  if fs.any (fun e => e.1 == p) then
    fs.map (fun e => if e.1 == p then (p, t) else e)
  else fs ++ [(p, t)]

/-- Embeds `get_original_path`: derive the original path from the working
copy path by `copy_path.replace('_copy.csv', '.csv')`. -/
def get_original_path (copy_path : String) : String :=
  pyReplace copy_path "_copy.csv" ".csv"

/-- Embeds the `save_project` endpoint: load the table at the original path,
select the project's log entries with `applied == False` (this endpoint
builds the criterion correctly) ordered by timestamp, fold them through
`apply_logged_transformation`, write the result back to the ORIGINAL path
(the source passes `original_path`, not `project.file_path`, to
`save_csv_safe`), and finally `create_checkpoint`. -/
def save_project (P : Pandas) (fs : FileMap) (db : DB) (project : ProjectRec)
    (commit_message : String) : Except PyError (FileMap × DB × Table) := do
  let original_path := get_original_path project.file_path
  let df ← match readFile fs original_path with
           | some t => pure t
           | none => throw (PyError.httpNotFound "CSV file not found")
  let logs := sortByTimestamp (db.logs.filter
    (fun l => l.project_id == project.project_id && l.applied == false))
  let df ← logs.foldlM (fun d l => apply_logged_transformation P d l.action_type l.action_details) df
  let fs2 := writeFile fs original_path df
  let (db2, _cp) := create_checkpoint db project.project_id commit_message
  pure (fs2, db2, df)

/-! ## Concrete fixtures for the claim theorems -/

/-- A trivial pandas environment for closed evaluations: the query evaluator
returns the frame unchanged and the date parser never parses.  (Universally
quantified theorems range over every `Pandas`; this one only instantiates
them.) -/
def pandasEnv0 : Pandas := ⟨fun df _ => .ok df, fun _ => none⟩

/-- The three-row sample frame of the repository's unit tests
(`tests/test_transformations.py`). -/
def sampleT : Table :=
  ⟨["name", "age", "city"], [.object, .int64, .object],
   [(0, [.str "Alice", .int 30, .str "New York"]),
    (1, [.str "Bob", .int 25, .str "Los Angeles"]),
    (2, [.str "Charlie", .int 35, .str "Chicago"])]⟩

/-- A one-cell object column holding the parsable-but-fractional string
`1.5`. -/
def fracT : Table := ⟨["val"], [.object], [(0, [.str "1.5"])]⟩

/-- The pivot example table of spec §8.7. -/
def cityT : Table :=
  ⟨["city", "product", "sales"], [.object, .object, .int64],
   [(0, [.str "NY", .str "A", .int 100]),
    (1, [.str "LA", .str "A", .int 200]),
    (2, [.str "NY", .str "B", .int 150]),
    (3, [.str "LA", .str "B", .int 250])]⟩

/-- A three-row integer frame with the standard index. -/
def t3 : Table := ⟨["a"], [.int64], [(0, [.int 10]), (1, [.int 20]), (2, [.int 30])]⟩

/-- Serialized parameters of a logged `delRow` at index 1. -/
def delRow1Details : ActionDetails := { row_params := some ⟨1⟩ }

/-- A two-row integer frame standing for an uploaded original file. -/
def origT : Table := ⟨["a"], [.int64], [(0, [.int 10]), (1, [.int 20])]⟩

/-- What replaying `delRow 0` onto `origT` produces (label 0 dropped, no
index reset on the replay path). -/
def resT : Table := ⟨["a"], [.int64], [(1, [.int 20])]⟩

/-- Storage holding the original upload and its working copy. -/
def fsC1 : FileMap := [("up/f.csv", origT), ("up/f_copy.csv", origT)]

/-- The project owning those files; its `file_path` is the working copy. -/
def projC1 : ProjectRec := ⟨7, "up/f_copy.csv"⟩

/-- A database with exactly one unapplied log entry (a `delRow 0`) for
project 7. -/
def dbOne : DB :=
  ⟨[⟨1, 7, "delRow", { row_params := some ⟨0⟩ }, 100, none, false⟩], [], 1, 500⟩

/-! ## Claim theorems -/

/-- C1: the claim says Save writes the replayed table to the working-copy
location and leaves the original uploaded file unchanged.  The code does the
opposite: on a project with one unapplied `delRow 0` entry, `save_project`
overwrites the ORIGINAL file (`up/f.csv`) with the replayed table and leaves
the working copy (`up/f_copy.csv`, the project's `file_path`) untouched. -/
theorem c1_save_overwrites_original_file :
    (save_project pandasEnv0 fsC1 dbOne projC1 "save").map
        (fun r => (readFile r.1 "up/f.csv", readFile r.1 "up/f_copy.csv")) =
      .ok (some resT, some origT) ∧ resT ≠ origT := by
  decide

/-- C2: the claim says replaying a serialized log entry equals applying the
registry operation directly, for every logged kind.  The `delRow` replay
branch drops by label without `reset_index`, unlike `delete_row`: replaying
`[delRow 1, delRow 1]` on a fresh three-row frame raises an uncaught
`KeyError`, while the direct sequential application succeeds. -/
theorem c2_replay_delRow_diverges_from_delete_row :
    ((apply_logged_transformation pandasEnv0 t3 "delRow" delRow1Details).bind
        (fun t => apply_logged_transformation pandasEnv0 t "delRow" delRow1Details) =
      .error (PyError.keyError "1")) ∧
    ((delete_row t3 1).bind (fun t => delete_row t 1) =
      .ok ⟨["a"], [.int64], [(0, [.int 10])]⟩) := by
  decide

/-- C3: the claim says `create_checkpoint` flips every previously-unapplied
entry to applied and leaves 0 unapplied entries.  Because the query criterion
`not ProjectChangeLog.applied` degenerates to the constant SQL false clause,
the checkpoint row is created but NO log entry is touched: on a database with
one unapplied entry the logs are unchanged and the unapplied count is still
1. -/
theorem c3_checkpoint_marks_no_logs :
    (create_checkpoint dbOne 7 "First save").1.logs = dbOne.logs ∧
    dbOne.logs.map LogRec.applied = [false] ∧
    (create_checkpoint dbOne 7 "First save").2.id = 1 ∧
    unappliedCount (create_checkpoint dbOne 7 "First save").1 7 = 1 := by
  decide

/-- C4: the claim says `undoLast` deletes the most recent unapplied entry and
returns it with the remaining count.  The same degenerate criterion makes the
selection query match no rows, so on a database holding one unapplied entry
the function deletes nothing and returns `(none, 0)`. -/
theorem c4_undo_removes_nothing :
    undo_last_transformation dbOne 7 = (dbOne, none, 0) ∧
    unappliedCount dbOne 7 = 1 := by
  decide

/-- C5: the claim says the filter accepts every condition in
`{=, !=, >, <, >=, <=, contains}`.  The `ops` dict of `apply_filter` has no
`!=` and no `contains` key, so both raise `Unsupported filter condition`,
while a supported condition such as `>` (with the numeric auto-cast) works. -/
theorem c5_neq_and_contains_rejected :
    apply_filter sampleT "name" "!=" "Alice" =
      .error (PyError.transformation "Unsupported filter condition: !=") ∧
    apply_filter sampleT "name" "contains" "li" =
      .error (PyError.transformation "Unsupported filter condition: contains") ∧
    apply_filter sampleT "age" ">" "28" =
      .ok ⟨["name", "age", "city"], [.object, .int64, .object],
        [(0, [.str "Alice", .int 30, .str "New York"]),
         (2, [.str "Charlie", .int 35, .str "Chicago"])]⟩ := by
  decide

/-- C6 counterexample: the claim quantifies over every query CONTAINING
`lambda`, but the guard pattern is the word-bounded `\blambda\b`: the query
`lambdax` contains `lambda` yet passes `validate_query_string`. -/
theorem c6_lambdax_passes_guard :
    containsSub (lowq "lambdax") ("lambda".toList) = true ∧
    validate_query_string "lambdax" = .ok "lambdax" := by
  decide

/-- C6 amended: every query containing `__import__` or `__builtins__`
(case-insensitively), containing `lambda` as a word-boundary-delimited token,
or containing a double-underscore-wrapped token, is rejected by the guard,
and `advanced_query` then returns that rejection for EVERY expression
evaluator — the expression is never handed to it. -/
theorem c6_guard_rejects_dangerous (q : String)
    (h : containsSub (lowq q) "__import__".toList = true ∨
         containsSub (lowq q) "__builtins__".toList = true ∨
         hasWordToken (lowq q) "lambda".toList = true ∨
         hasDunder (lowq q) = true) :
    validate_query_string q =
      .error (PyError.httpBadRequest "Query contains potentially dangerous expressions") ∧
    ∀ (P : Pandas) (df : Table),
      advanced_query P df q =
        .error (PyError.httpBadRequest "Query contains potentially dangerous expressions") := by
  have hd : dangerousQuery q = true := by
    unfold dangerousQuery
    simp only [Bool.or_eq_true]
    tauto
  refine ⟨?_, ?_⟩
  · unfold validate_query_string
    rw [if_pos hd]
  · intro P df
    unfold advanced_query validate_query_string
    rw [if_pos hd]
    rfl

/-- C6 amended witness: the guard and `advanced_query` reject a concrete
dangerous query under a concrete evaluator. -/
theorem c6_guard_rejects_dangerous_witness :
    validate_query_string "__import__" =
      .error (PyError.httpBadRequest "Query contains potentially dangerous expressions") ∧
    advanced_query pandasEnv0 sampleT "__import__" =
      .error (PyError.httpBadRequest "Query contains potentially dangerous expressions") :=
  have h := c6_guard_rejects_dangerous "__import__" (Or.inl (by decide))
  ⟨h.1, h.2 pandasEnv0 sampleT⟩

/-- C7 counterexample: the claim says only an unknown column name is an
error, but casting the existing column `["1.5"]` to integer raises
(`astype("Int64")` refuses the fractional coerced value). -/
theorem c7_integer_cast_fractional_errors :
    fracT.names.contains "val" = true ∧
    cast_data_type pandasEnv0 fracT "val" "integer" =
      .error (PyError.transformation "Failed to cast column") := by
  decide

/-- C7 amended: on an existing column, float casts map every unparsable value
to missing and never raise; integer casts do the same UNLESS some value
coerces to a number with a nonzero fractional part, in which case they raise;
boolean casts map exactly the trimmed, lower-cased tokens
`{true,1,yes,y,on}` / `{false,0,no,n,off}` and everything else to missing;
datetime casts map values the date parser cannot parse to missing; an unknown
column is an error. -/
theorem c7_cast_data_type_amended (P : Pandas) (df : Table) (column : String) (j : Nat)
    (hj : colPos df column = some j) (hmem : df.names.contains column = true) :
    cast_data_type P df column "float" =
      .ok (setCol df j Dtype.float64 ((colVals df j).map (fun v =>
        match toNumericVal v with
        | none => Value.na
        | some q => Value.float q))) ∧
    ((∀ v ∈ colVals df j, ∀ x, toNumericVal v = some x → x.den = 1) →
      cast_data_type P df column "integer" =
        .ok (setCol df j Dtype.int64N ((colVals df j).map (fun v =>
          match toNumericVal v with
          | none => Value.na
          | some q => Value.int q.num)))) ∧
    ((∃ v ∈ colVals df j, ∃ x, toNumericVal v = some x ∧ x.den ≠ 1) →
      cast_data_type P df column "integer" =
        .error (PyError.transformation "Failed to cast column")) ∧
    cast_data_type P df column "boolean" =
      .ok (setCol df j Dtype.booleanN ((colVals df j).map (fun v =>
        if truthyTokens.contains (pyLower (pyStrip (pyStr v))) then Value.bool true
        else if falsyTokens.contains (pyLower (pyStrip (pyStr v))) then Value.bool false
        else Value.na))) ∧
    cast_data_type P df column "datetime" =
      .ok (setCol df j Dtype.datetime64 ((colVals df j).map (fun v =>
        match v with
        | Value.na => Value.na
        | v => match P.dtparse (pyStr v) with
               | some t => Value.dt t
               | none => Value.na))) ∧
    (∀ badcol, df.names.contains badcol = false →
      cast_data_type P df badcol "integer" =
        .error (PyError.transformation "Column not found")) := by
  have hbt : boolTokenVal = (fun v =>
      if truthyTokens.contains (pyLower (pyStrip (pyStr v))) then Value.bool true
      else if falsyTokens.contains (pyLower (pyStrip (pyStr v))) then Value.bool false
      else Value.na) := by
    funext v; rfl
  have hmem2 : column ∈ df.names := by simpa using hmem
  refine ⟨?_, ?_, ?_, ?_, ?_, ?_⟩
  · simp [cast_data_type, hmem, hmem2, hj, List.map_map, Function.comp]
    have hc : ((fun o => match o with | some q => Value.float q | none => Value.na) ∘
        toNumericVal) = (fun v => match toNumericVal v with
          | none => Value.na
          | some q => Value.float q) := by
      funext v
      simp only [Function.comp_apply]
      cases toNumericVal v <;> rfl
    rw [hc]
  · intro hall
    have hfalse : ((colVals df j).map toNumericVal).any (fun o => match o with
        | some q => q.den != 1 | none => false) = false := by
      rw [List.any_eq_false]
      intro o ho
      rcases List.mem_map.mp ho with ⟨v, hv, rfl⟩
      cases hox : toNumericVal v with
      | none => simp
      | some x => simp [hall v hv x hox]
    simp [cast_data_type, hmem, hmem2, hj, hfalse, List.map_map, Function.comp]
    have hc : ((fun o => match o with | some q => Value.int q.num | none => Value.na) ∘
        toNumericVal) = (fun v => match toNumericVal v with
          | none => Value.na
          | some q => Value.int q.num) := by
      funext v
      simp only [Function.comp_apply]
      cases toNumericVal v <;> rfl
    rw [hc]
  · rintro ⟨v, hv, x, hx, hden⟩
    have htrue : ((colVals df j).map toNumericVal).any (fun o => match o with
        | some q => q.den != 1 | none => false) = true := by
      rw [List.any_eq_true]
      refine ⟨toNumericVal v, List.mem_map_of_mem _ hv, ?_⟩
      rw [hx]
      simpa using hden
    simp [cast_data_type, hmem, hmem2, hj, htrue]
  · simp [cast_data_type, hmem, hmem2, hj, hbt]
  · simp [cast_data_type, hmem, hmem2, hj]
  · intro badcol hbad
    simp only [cast_data_type]
    rw [if_pos]
    simpa using hbad

/-- C7 amended witness: the float cast succeeds on a concrete integer column
and the integer cast raises on a concrete fractional column. -/
theorem c7_cast_data_type_amended_witness :
    cast_data_type pandasEnv0 sampleT "age" "float" =
      .ok (setCol sampleT 1 Dtype.float64 ((colVals sampleT 1).map (fun v =>
        match toNumericVal v with
        | none => Value.na
        | some q => Value.float q))) ∧
    cast_data_type pandasEnv0 fracT "val" "integer" =
      .error (PyError.transformation "Failed to cast column") :=
  ⟨(c7_cast_data_type_amended pandasEnv0 sampleT "age" 1 (by decide) (by decide)).1,
   (c7_cast_data_type_amended pandasEnv0 fracT "val" 0 (by decide) (by decide)).2.2.1
     ⟨Value.str "1.5", by decide, ⟨3, 2⟩, by decide, by decide⟩⟩

/-- C8 counterexample: the claim says an out-of-bounds column index —
including the 1-based index 0, whose real position is -1 — raises an error.
With `col_index = 0` the code instead wraps to the LAST column and succeeds,
overwriting the `city` cell of row 0. -/
theorem c8_col_index_zero_accepted :
    change_cell_value sampleT 0 0 (Value.str "X") =
      .ok ⟨["name", "age", "city"], [.object, .int64, .object],
        [(0, [.str "Alice", .int 30, .str "X"]),
         (1, [.str "Bob", .int 25, .str "Los Angeles"]),
         (2, [.str "Charlie", .int 35, .str "Chicago"])]⟩ := by
  decide

/-- C8 amended: `change_cell_value` raises `Row or column index out of
bounds` exactly when `row_index` is at or above the row count or `col_index`
is at or above column count + 1.  A `col_index` whose real position
`col_index - 1` is negative is not caught by that check: Python indexing
wraps it from the end of the columns (so `col_index = 0` addresses the LAST
column), and only a position below the wrap range
(`col_index - 1 < -column count`) raises an uncaught `IndexError`.  A
negative `row_index` is not rejected either: it addresses the row label
`row_index`, enlarging the frame with a new row carrying that label and
missing values elsewhere when no such label exists.  In every non-error case
exactly the one cell at the resolved column position is set, with the value
coerced to the column's current integer/float/boolean dtype and coercion
failure raised as a `TransformationError`. -/
theorem c8_change_cell_value_amended (df : Table) (row_index col_index : Int)
    (value : Value) :
    (((df.rows.length : Int) ≤ row_index ∨ (df.names.length : Int) + 1 ≤ col_index) →
      change_cell_value df row_index col_index value =
        .error (PyError.transformation "Row or column index out of bounds")) ∧
    (row_index < (df.rows.length : Int) → col_index < (df.names.length : Int) + 1 →
      col_index - 1 + (df.names.length : Int) < 0 →
      change_cell_value df row_index col_index value =
        .error (PyError.indexError "index out of range")) ∧
    (row_index < (df.rows.length : Int) → col_index < (df.names.length : Int) + 1 →
      col_index - 1 < 0 → 0 ≤ col_index - 1 + (df.names.length : Int) →
      ∀ v, coerceCell (colDtype df (col_index - 1 + (df.names.length : Int)).toNat) value =
        some v →
      df.rows.any (fun r => r.1 == row_index) = true →
      change_cell_value df row_index col_index value =
        .ok { df with rows := df.rows.map (fun r =>
          if r.1 == row_index then
            (r.1, r.2.set (col_index - 1 + (df.names.length : Int)).toNat v)
          else r) }) ∧
    (row_index < (df.rows.length : Int) → 1 ≤ col_index →
      col_index < (df.names.length : Int) + 1 →
      ∀ v, coerceCell (colDtype df (col_index - 1).toNat) value = some v →
      df.rows.any (fun r => r.1 == row_index) = true →
      change_cell_value df row_index col_index value =
        .ok { df with rows := df.rows.map (fun r =>
          if r.1 == row_index then (r.1, r.2.set (col_index - 1).toNat v) else r) }) ∧
    (row_index < 0 → 1 ≤ col_index → col_index < (df.names.length : Int) + 1 →
      ∀ v, coerceCell (colDtype df (col_index - 1).toNat) value = some v →
      df.rows.any (fun r => r.1 == row_index) = false →
      change_cell_value df row_index col_index value =
        .ok { df with rows := df.rows ++
          [(row_index, (df.names.map (fun _ => Value.na)).set (col_index - 1).toNat v)] }) ∧
    (row_index < (df.rows.length : Int) → 1 ≤ col_index →
      col_index < (df.names.length : Int) + 1 →
      coerceCell (colDtype df (col_index - 1).toNat) value = none →
      change_cell_value df row_index col_index value =
        .error (PyError.transformation "Cannot convert value to column type")) := by
  refine ⟨?_, ?_, ?_, ?_, ?_, ?_⟩
  · intro h
    unfold change_cell_value
    rw [if_pos h]
  · intro h1 h2 hblw
    have hnot1 : ¬ ((df.rows.length : Int) ≤ row_index ∨
        (df.names.length : Int) + 1 ≤ col_index) := by omega
    have hneg : col_index - 1 < 0 := by omega
    have hb : (col_index - 1 + (df.names.length : Int) < 0 ∨
        (df.names.length : Int) ≤ col_index - 1 + (df.names.length : Int)) := Or.inl hblw
    simp only [change_cell_value, if_neg hnot1, if_pos hneg, if_pos hb]
  · intro h1 h2 hneg hge v hv hany
    have hnot1 : ¬ ((df.rows.length : Int) ≤ row_index ∨
        (df.names.length : Int) + 1 ≤ col_index) := by omega
    have hb : ¬ (col_index - 1 + (df.names.length : Int) < 0 ∨
        (df.names.length : Int) ≤ col_index - 1 + (df.names.length : Int)) := by omega
    simp only [change_cell_value, if_neg hnot1, if_pos hneg, if_neg hb, hv, hany, if_true]
  · intro h1 h2 h3 v hv hany
    have hnot1 : ¬ ((df.rows.length : Int) ≤ row_index ∨
        (df.names.length : Int) + 1 ≤ col_index) := by omega
    have hneg : ¬ (col_index - 1 < 0) := by omega
    have hb : ¬ (col_index - 1 < 0 ∨ (df.names.length : Int) ≤ col_index - 1) := by omega
    simp only [change_cell_value, if_neg hnot1, if_neg hneg, if_neg hb, hv, hany, if_true]
  · intro h0 h2 h3 v hv hanyF
    have hnot1 : ¬ ((df.rows.length : Int) ≤ row_index ∨
        (df.names.length : Int) + 1 ≤ col_index) := by omega
    have hneg : ¬ (col_index - 1 < 0) := by omega
    have hb : ¬ (col_index - 1 < 0 ∨ (df.names.length : Int) ≤ col_index - 1) := by omega
    simp only [change_cell_value, if_neg hnot1, if_neg hneg, if_neg hb, hv, hanyF,
      Bool.false_eq_true, if_false]
  · intro h1 h2 h3 hv
    have hnot1 : ¬ ((df.rows.length : Int) ≤ row_index ∨
        (df.names.length : Int) + 1 ≤ col_index) := by omega
    have hneg : ¬ (col_index - 1 < 0) := by omega
    have hb : ¬ (col_index - 1 < 0 ∨ (df.names.length : Int) ≤ col_index - 1) := by omega
    simp only [change_cell_value, if_neg hnot1, if_neg hneg, if_neg hb, hv]

/-- C8 amended witness: all six contours at concrete inputs — row index 5 out
of bounds, column index -3 below the wrap range raising `IndexError`, column
index -1 wrapping to the `age` column and setting it, a plain in-range
coerced update, a negative row index -1 enlarging the frame with a new
labelled row, and a failing coercion. -/
theorem c8_change_cell_value_amended_witness :
    change_cell_value sampleT 5 1 (Value.str "X") =
      .error (PyError.transformation "Row or column index out of bounds") ∧
    change_cell_value sampleT 0 (-3) (Value.str "X") =
      .error (PyError.indexError "index out of range") ∧
    change_cell_value sampleT 0 (-1) (Value.str "23") =
      .ok { sampleT with rows := sampleT.rows.map (fun r =>
        if r.1 == 0 then (r.1, r.2.set 1 (Value.int 23)) else r) } ∧
    change_cell_value sampleT 0 2 (Value.str "41") =
      .ok { sampleT with rows := sampleT.rows.map (fun r =>
        if r.1 == 0 then (r.1, r.2.set 1 (Value.int 41)) else r) } ∧
    change_cell_value sampleT (-1) 1 (Value.str "Zed") =
      .ok { sampleT with rows := sampleT.rows ++
        [(-1, [Value.str "Zed", Value.na, Value.na])] } ∧
    change_cell_value sampleT 0 2 (Value.str "abc") =
      .error (PyError.transformation "Cannot convert value to column type") :=
  ⟨(c8_change_cell_value_amended sampleT 5 1 (Value.str "X")).1 (Or.inl (by decide)),
   (c8_change_cell_value_amended sampleT 0 (-3) (Value.str "X")).2.1
     (by decide) (by decide) (by decide),
   (c8_change_cell_value_amended sampleT 0 (-1) (Value.str "23")).2.2.1
     (by decide) (by decide) (by decide) (by decide) (Value.int 23) (by decide) (by decide),
   (c8_change_cell_value_amended sampleT 0 2 (Value.str "41")).2.2.2.1
     (by decide) (by decide) (by decide) (Value.int 41) (by decide) (by decide),
   (c8_change_cell_value_amended sampleT (-1) 1 (Value.str "Zed")).2.2.2.2.1
     (by decide) (by decide) (by decide) (Value.str "Zed") (by decide) (by decide),
   (c8_change_cell_value_amended sampleT 0 2 (Value.str "abc")).2.2.2.2.2
     (by decide) (by decide) (by decide) (by decide)⟩

/-- C9: pivoting the example table on index `city`, value `sales`, no pivot
column and `sum` aggregation yields exactly two rows, one per city, whose
`sales` holds 450 for LA and 250 for NY. -/
theorem c9_pivot_example :
    pivot_table cityT "city" "sales" none "sum" =
      .ok ⟨["city", "sales"], [.object, .int64],
        [(0, [.str "LA", .int 450]), (1, [.str "NY", .int 250])]⟩ := by
  decide

/-- C10: replaying a log entry whose kind is none of the recognized kinds
returns the input table unchanged and raises no error, for every evaluator
environment, table and details payload. -/
theorem c10_unknown_kind_identity (P : Pandas) (df : Table) (kind : String)
    (details : ActionDetails) (h : ¬ kind ∈ recognizedKinds) :
    apply_logged_transformation P df kind details = .ok df := by
  unfold recognizedKinds at h
  simp only [List.mem_cons, List.not_mem_nil, or_false, not_or] at h
  obtain ⟨h1, h2, h3, h4, h5, h6, h7, h8, h9, h10, h11, h12, h13⟩ := h
  unfold apply_logged_transformation
  simp [h1, h2, h3, h4, h5, h6, h7, h8, h9, h10, h11, h12, h13]

/-- C10 witness: `trimWhitespace` is logged by the transform endpoint but has
no replay branch; replaying it returns the frame unchanged. -/
theorem c10_unknown_kind_identity_witness :
    apply_logged_transformation pandasEnv0 sampleT "trimWhitespace" {} = .ok sampleT :=
  c10_unknown_kind_identity pandasEnv0 sampleT "trimWhitespace" {} (by decide)

end DataLoom
